import Mathlib

/-!
Shallow embedding of the acquisition-buffer-persistence pipeline of
src/Fluke_realtime.py (a Fluke 1620A tkinter data logger).

The embedding covers:
* the line decoder inside serial_reader_thread (lines 456-487);
* the serial reader loop with its initial-open failure path and the
  mid-session reconnect handler (lines 443-508), modelled as a function
  from a script of I/O events to the trace of externally visible actions;
* the deque(maxlen=n) rolling windows (lines 73-79, 382-388, 525-531);
* save_to_excel (lines 640-671), modelled as a function on an explicit
  file-system state (target path content, temp path content) that also
  returns the list of file-system states observable during the call;
* the update_plots consumer tick (lines 511-589): queue processing with
  timestamp parse, window/buffer appends, and the periodic-save check;
* stop_logging (lines 408-434).

Numeric parsing (Python float), the heat-index formula, and the
datetime.strptime timestamp parse are injected as parameters, exactly as
the specification treats the heat-index function: the pipeline logic under
verification is independent of their internals.  shutil.move within one
directory is modelled as an atomic rename; os.remove of an existing file
is assumed to succeed.
-/

namespace Fluke

/-- The non-breaking-space character the instrument is known to emit. -/
def nbsp : Char := Char.ofNat 160

/-- Python str.strip on both ends of a character list (whitespace only). -/
def trimChars (cs : List Char) : List Char :=
  ((cs.dropWhile Char.isWhitespace).reverse.dropWhile Char.isWhitespace).reverse

/-- line.replace of U+00A0 by an ordinary space (src line 460). -/
def normalizeNBSP (cs : List Char) : List Char :=
  cs.map (fun c => if c = nbsp then ' ' else c)

/-- Helper for splitting on commas, accumulating the current field. -/
def splitCommaAux : List Char → List Char → List (List Char)
  | [], acc => [acc.reverse]
  | c :: rest, acc =>
      if c = ',' then acc.reverse :: splitCommaAux rest []
      else splitCommaAux rest (c :: acc)

/-- Python cleaned_line.split of a comma-separated line (src line 461). -/
def splitComma (cs : List Char) : List (List Char) := splitCommaAux cs []

/-- parts = [part.strip() for part in cleaned_line.split(',')] applied to a
stripped line: replace NBSP, strip, split on commas, strip each field
(src lines 460-461). -/
def fieldsFrom (line : List Char) : List String :=
  (splitComma (trimChars (normalizeNBSP line))).map (fun f => String.mk (trimChars f))

/-- The comma-separated fields the reader extracts from one raw serial line
(readline().strip() followed by src lines 460-461). -/
def fieldsOfLine (raw : String) : List String := fieldsFrom (trimChars raw.data)

/-- One decoded reading: the dict pushed into data_queue (src lines 474-482)
and equally one row of new_records_buffer (src lines 545-548).  F is the
numeric type produced by the injected float parser. -/
structure Sample (F : Type) where
  timestamp_str : String
  temp : F
  rh : F
  temp2 : F
  humidity2 : F
  heat_index : F
  heat_index2 : F
deriving DecidableEq

/-- Outcome of handling one raw line (src lines 456-487): a decoded sample,
a reported numeric-parse error (ValueError at float()), or a silent skip
(empty line, or fewer than 8 comma-separated fields). -/
inductive DecodeOutcome (F : Type) where
  | sample (s : Sample F)
  | numericParseError
  | skip
deriving DecidableEq

/-- The line decoder (src lines 456-482): strip the line, skip it when
empty, normalize NBSP, split on commas with stripped fields; with at least
8 fields parse fields 1, 3, 5, 7 with the injected numeric parser pf and
derive both heat indices with the injected function hi; with fewer than 8
fields the line is skipped silently. -/
def decodeLine {F : Type} (pf : String → Option F) (hi : F → F → F)
    (raw : String) : DecodeOutcome F :=
  if trimChars raw.data = [] then DecodeOutcome.skip
  else if 8 ≤ (fieldsOfLine raw).length then
    match pf ((fieldsOfLine raw).getD 1 ""), pf ((fieldsOfLine raw).getD 3 ""),
        pf ((fieldsOfLine raw).getD 5 ""), pf ((fieldsOfLine raw).getD 7 "") with
    | some t, some r, some t2, some h2 =>
        DecodeOutcome.sample ⟨(fieldsOfLine raw).getD 0 "", t, r, t2, h2, hi t r, hi t2 h2⟩
    | _, _, _, _ => DecodeOutcome.numericParseError
  else DecodeOutcome.skip

/-- A concrete decimal parser used only to instantiate the injected numeric
parser in witnesses and counterexamples. -/
def parseNat? (s : String) : Option Nat :=
  if !s.data.isEmpty && s.data.all Char.isDigit then
    some (s.data.foldl (fun a c => a * 10 + (c.toNat - 48)) 0)
  else none

/-- One iteration's worth of input to the reader loop: a successfully read
line, or a SerialException during the read paired with the outcome the
environment gives the subsequent reopen attempt. -/
inductive REvent where
  | read (raw : String)
  | readFail (reconnectOk : Bool)
deriving DecidableEq

/-- Externally visible actions of the reader thread, in program order. -/
inductive RAction (F : Type) where
  | push (s : Sample F)
  | reportParseError
  | reportError
  | closeHandle
  | openPort (port : String) (baud : Nat) (ok : Bool)
  | sleepBackoff
  | reportOpenFailed
deriving DecidableEq

/-- Actions for one successfully read line (src lines 456-487): a decoded
sample is pushed to the queue, a numeric parse error is reported, and an
empty or short line produces nothing. -/
def handleRead {F : Type} (pf : String → Option F) (hi : F → F → F)
    (raw : String) : List (RAction F) :=
  match decodeLine pf hi raw with
  | DecodeOutcome.sample s => [RAction.push s]
  | DecodeOutcome.numericParseError => [RAction.reportParseError]
  | DecodeOutcome.skip => []

/-- Actions of the mid-session SerialException handler (src lines 489-498):
report the error, close the handle if it is open, immediately attempt to
reopen the same port and baud, and sleep the fixed backoff only when the
reopen attempt failed. -/
def failTrace {F : Type} (port : String) (baud : Nat) (isOpen ok : Bool) :
    List (RAction F) :=
  RAction.reportError ::
    ((if isOpen then [RAction.closeHandle] else []) ++
      RAction.openPort port baud ok ::
        (if ok then [] else [RAction.sleepBackoff]))

/-- The while-loop of serial_reader_thread (src lines 454-501) over a finite
script of I/O events; the script ending models the stop signal being
observed at the top of the loop.  Returns the action trace and whether the
handle is open on exit. -/
def runLoop {F : Type} (pf : String → Option F) (hi : F → F → F)
    (port : String) (baud : Nat) :
    Bool → List REvent → List (RAction F) × Bool
  | isOpen, [] => ([], isOpen)
  | isOpen, REvent.read raw :: rest =>
      let tail := runLoop pf hi port baud isOpen rest
      (handleRead pf hi raw ++ tail.1, tail.2)
  | isOpen, REvent.readFail ok :: rest =>
      let tail := runLoop pf hi port baud ok rest
      (failTrace port baud isOpen ok ++ tail.1, tail.2)

/-- serial_reader_thread (src lines 443-508): the initial open either
succeeds and enters the read loop (closing the handle on exit when it is
still open), or fails, in which case the error is reported and the
function returns at once. -/
def serialReader {F : Type} (pf : String → Option F) (hi : F → F → F)
    (port : String) (baud : Nat) (openOk : Bool) (events : List REvent) :
    List (RAction F) :=
  if openOk then
    let r := runLoop pf hi port baud true events
    RAction.openPort port baud true :: r.1 ++
      (if r.2 then [RAction.closeHandle] else [])
  else [RAction.openPort port baud false, RAction.reportOpenFailed]

/-- True when every failed reopen attempt in a trace is immediately
followed by the backoff sleep, i.e. the loop never busy-loops on a port
that will not open. -/
def noBusy {F : Type} : List (RAction F) → Bool
  | [] => true
  | RAction.openPort _ _ ok :: rest =>
      if ok then noBusy rest
      else
        match rest with
        | RAction.sleepBackoff :: _ => noBusy rest
        | _ => false
  | _ :: rest => noBusy rest

/-- collections.deque(maxlen := cap) append: the oldest element is evicted
once the capacity is reached (src lines 73-79, 525-531). -/
def dqAppend {α : Type} (cap : Nat) (w : List α) (x : α) : List α :=
  if w.length < cap then w ++ [x] else w.drop 1 ++ [x]

/-- Appending a whole list of values to a deque, oldest first. -/
def dqAppendAll {α : Type} (cap : Nat) (w : List α) (xs : List α) : List α :=
  xs.foldl (dqAppend cap) w

/-- Environment of one save_to_excel call: whether reading the existing
file, writing the temporary file, and the final move each succeed. -/
structure SaveEnv where
  readOk : Bool
  writeOk : Bool
  moveOk : Bool
deriving DecidableEq

/-- Contents of the persisted store: what is durably at the target path
(the day's xlsx) and at the temporary path, if those files exist. -/
structure FS (R : Type) where
  target : Option (List R)
  temp : Option (List R)
deriving DecidableEq

/-- The merged row set save_to_excel builds (src lines 648-658): existing
rows followed by the new rows; a read failure of an existing file degrades
to the new rows alone. -/
def mergeRows {R : Type} (target : Option (List R)) (readOk : Bool)
    (records : List R) : List R :=
  match target with
  | some old => if readOk then old ++ records else records
  | none => records

/-- save_to_excel (src lines 640-671) as a file-system transformer.  Returns
the list of file-system states observable at the target and temp paths
during the call (in order: initial, after the temp write, after os.remove
of the target, after shutil.move, with the finally-block temp cleanup
folded into the last state) together with the final state.  A failed step
raises inside the try block, so the remaining steps are skipped and the
finally block removes a leftover temp file. -/
def saveToExcel {R : Type} (env : SaveEnv) (records : List R) (fs : FS R) :
    List (FS R) × FS R :=
  if records.isEmpty then ([fs], fs)
  else
    let merged := mergeRows fs.target env.readOk records
    if env.writeOk then
      match fs.target with
      | some _ =>
          if env.moveOk then
            ([fs, ⟨fs.target, some merged⟩, ⟨none, some merged⟩,
              ⟨some merged, none⟩], ⟨some merged, none⟩)
          else
            ([fs, ⟨fs.target, some merged⟩, ⟨none, some merged⟩,
              ⟨none, none⟩], ⟨none, none⟩)
      | none =>
          if env.moveOk then
            ([fs, ⟨none, some merged⟩, ⟨some merged, none⟩], ⟨some merged, none⟩)
          else
            ([fs, ⟨none, some merged⟩, ⟨none, none⟩], ⟨none, none⟩)
    else ([fs], fs)

/-- The periodic-save predicate of update_plots (src lines 580-582):
len(new_records_buffer) >= SAVE_INTERVAL_RECORDS or (new_records_buffer
and current_time - last_save_time >= SAVE_INTERVAL_SECONDS). -/
def shouldFlush {R : Type} (buffer : List R) (now lastSave : Int)
    (recTh secTh : Nat) : Bool :=
  decide (recTh ≤ buffer.length) ||
    (!buffer.isEmpty && decide ((secTh : Int) ≤ now - lastSave))

/-- The seven plot deques (src lines 73-79): parsed timestamps of type N
plus the six numeric series. -/
structure Windows (N F : Type) where
  ts : List N
  temps : List F
  hums : List F
  temp2s : List F
  hum2s : List F
  his : List F
  hi2s : List F
deriving DecidableEq

/-- Appending one dequeued sample to every plot deque (src lines 525-531). -/
def appendWindows {N F : Type} (cap : Nat) (w : Windows N F) (t : N)
    (d : Sample F) : Windows N F :=
  ⟨dqAppend cap w.ts t, dqAppend cap w.temps d.temp, dqAppend cap w.hums d.rh,
    dqAppend cap w.temp2s d.temp2, dqAppend cap w.hum2s d.humidity2,
    dqAppend cap w.his d.heat_index, dqAppend cap w.hi2s d.heat_index2⟩

/-- State owned by the consumer side: the pending data_queue items, the
plot windows, new_records_buffer, last_save_time, and the on-disk store. -/
structure CState (N F : Type) where
  queue : List (Sample F)
  windows : Windows N F
  buffer : List (Sample F)
  lastSave : Int
  fs : FS (Sample F)
deriving DecidableEq

/-- The queue-draining while-loop of update_plots (src lines 515-548) with
the injected strptime model parseTs: each dequeued item whose timestamp
parses is appended to the windows and to new_records_buffer; the first
item whose timestamp fails to parse is dropped and the tick returns early
(flag true), leaving the items behind it queued. -/
def processQueue {N F : Type} (parseTs : String → Option N) (cap : Nat) :
    List (Sample F) → Windows N F → List (Sample F) →
    List (Sample F) × Windows N F × List (Sample F) × Bool
  | [], w, b => ([], w, b, false)
  | d :: rest, w, b =>
      match parseTs d.timestamp_str with
      | none => (rest, w, b, true)
      | some t => processQueue parseTs cap rest (appendWindows cap w t d) (b ++ [d])

/-- The windows after appending a list of samples whose timestamps parse;
used to state what processQueue did to the windows. -/
def windowsAfter {N F : Type} (parseTs : String → Option N) (cap : Nat) :
    Windows N F → List (Sample F) → Windows N F
  | w, [] => w
  | w, d :: ds =>
      match parseTs d.timestamp_str with
      | some t => windowsAfter parseTs cap (appendWindows cap w t d) ds
      | none => w

/-- One update_plots tick (src lines 511-589): drain the queue; on a
timestamp parse error return early; otherwise run the periodic-save check
and, when it fires, call save_to_excel, clear the buffer and set
last_save_time to the current time, whatever the save's outcome was
(save_to_excel reports its own errors and returns normally). -/
def updateTick {N F : Type} (parseTs : String → Option N)
    (cap recTh secTh : Nat) (now : Int) (env : SaveEnv) (st : CState N F) :
    CState N F :=
  match processQueue parseTs cap st.queue st.windows st.buffer with
  | (q', w', b', true) => { st with queue := q', windows := w', buffer := b' }
  | (q', w', b', false) =>
      if shouldFlush b' now st.lastSave recTh secTh then
        { st with
          queue := q'
          windows := w'
          buffer := []
          lastSave := now
          fs := (saveToExcel env b' st.fs).2 }
      else { st with queue := q', windows := w', buffer := b' }

/-- stop_logging (src lines 408-434): the stop event is set, the port is
closed, and the remaining new_records_buffer, if non-empty, is saved once
and cleared; the data_queue is not drained and last_save_time is not
consulted or changed. -/
def stopLogging {N F : Type} (env : SaveEnv) (st : CState N F) : CState N F :=
  if st.buffer.isEmpty then st
  else { st with buffer := [], fs := (saveToExcel env st.buffer st.fs).2 }

/-- Concrete objects used by witnesses and counterexamples. -/
def sampleA : Sample Nat := ⟨"1", 10, 20, 30, 40, 30, 70⟩

/-- A second concrete sample, left queued at stop in the C9 scenario. -/
def sampleB : Sample Nat := ⟨"2", 1, 2, 3, 4, 5, 6⟩

/-- Empty plot windows. -/
def w0 : Windows Nat Nat := ⟨[], [], [], [], [], [], []⟩

/-- Environment in which every persistence step succeeds. -/
def envOK : SaveEnv := ⟨true, true, true⟩

/-- Environment in which writing the temporary file fails. -/
def envWriteFail : SaveEnv := ⟨true, false, true⟩

/-- A sample whose device timestamp does not parse with the concrete
decimal timestamp parser used in witnesses. -/
def sampleBad : Sample Nat := ⟨"x", 0, 0, 0, 0, 0, 0⟩

/-- Consumer state for the C2 counterexample: empty queue, one buffered
sample, last save at time 0, no file on disk yet. -/
def stC2 : CState Nat Nat := ⟨[], w0, [sampleA], 0, ⟨none, none⟩⟩

/-- Consumer state for the C2 witness: two buffered samples. -/
def stC2w : CState Nat Nat := ⟨[], w0, [sampleA, sampleA], 5, ⟨none, none⟩⟩

/-- Consumer state for the C9 counterexample: one sample still queued in
the channel, empty buffer. -/
def stC9 : CState Nat Nat := ⟨[sampleB], w0, [], 0, ⟨none, none⟩⟩

/-- Consumer state for the C9 witness: one sample queued and one buffered. -/
def stC9w : CState Nat Nat := ⟨[sampleB], w0, [sampleA], 7, ⟨none, none⟩⟩

/-- Consumer state for the C10 witness: a parseable sample, then one with a
malformed timestamp, then another parseable one, all queued. -/
def stC10 : CState Nat Nat := ⟨[sampleA, sampleBad, sampleB], w0, [], 0, ⟨none, none⟩⟩

/-- Helper: a deque append never exceeds the configured capacity. -/
theorem dqAppend_length_le {α : Type} (cap : Nat) (hc : 0 < cap) (w : List α)
    (x : α) (hw : w.length ≤ cap) : (dqAppend cap w x).length ≤ cap := by
  unfold dqAppend
  by_cases h : w.length < cap
  · rw [if_pos h]
    simp
    omega
  · rw [if_neg h]
    simp
    omega

/-- Helper: starting from a deque within capacity, appending a list leaves
exactly the elements past the overflow, i.e. the most recent ones. -/
theorem dqAppendAll_eq_drop {α : Type} (cap : Nat) (hc : 0 < cap)
    (xs : List α) : ∀ (w : List α), w.length ≤ cap →
      dqAppendAll cap w xs = (w ++ xs).drop (w.length + xs.length - cap) := by
  induction xs with
  | nil =>
      intro w hw
      simp [dqAppendAll]
      rw [Nat.sub_eq_zero_of_le hw]
      simp
  | cons x xs ih =>
      intro w hw
      have hstep : dqAppendAll cap w (x :: xs) =
          dqAppendAll cap (dqAppend cap w x) xs := rfl
      rw [hstep, ih (dqAppend cap w x) (dqAppend_length_le cap hc w x hw)]
      by_cases h : w.length < cap
      · have hd : dqAppend cap w x = w ++ [x] := if_pos h
        rw [hd]
        have hl : (w ++ [x]).length = w.length + 1 := by simp
        rw [hl, List.append_assoc, List.singleton_append]
        congr 1
        simp
        omega
      · have hwlen : w.length = cap := le_antisymm hw (le_of_not_lt h)
        have hd : dqAppend cap w x = w.drop 1 ++ [x] := if_neg h
        rw [hd]
        have hl : (w.drop 1 ++ [x]).length = cap := by
          simp
          omega
        rw [hl]
        have hidx : cap + xs.length - cap = xs.length := by omega
        rw [hidx]
        have hidx2 : w.length + (x :: xs).length - cap = 1 + xs.length := by
          simp [hwlen]
          omega
        rw [hidx2]
        have hsplit : (w.drop 1 ++ [x]) ++ xs = (w ++ x :: xs).drop 1 := by
          rw [List.append_assoc, List.singleton_append,
            List.drop_append_eq_append_drop]
          have h10 : 1 - w.length = 0 := by omega
          rw [h10]
          rfl
        rw [hsplit]
        rw [List.drop_drop]

/-- Claim C3: the periodic-save predicate of update_plots is true exactly
when the buffer has reached the record threshold, or the buffer is
non-empty and at least the time threshold has elapsed since the last
save. -/
theorem c3_shouldFlush_iff {R : Type} (buffer : List R) (now lastSave : Int)
    (recTh secTh : Nat) :
    shouldFlush buffer now lastSave recTh secTh = true ↔
      (recTh ≤ buffer.length ∨
        (buffer ≠ [] ∧ (secTh : Int) ≤ now - lastSave)) := by
  cases buffer with
  | nil => simp [shouldFlush]
  | cons d ds => simp [shouldFlush]

/-- Claim C4: for every capacity cap > 0 and every input list longer than
cap, appending all its elements to an empty deque leaves a window of
length exactly cap whose contents are the last cap appended values in
arrival order. -/
theorem c4_rolling_window {α : Type} (cap : Nat) (xs : List α)
    (hc : 0 < cap) (hlen : cap < xs.length) :
    (dqAppendAll cap ([] : List α) xs).length = cap ∧
      dqAppendAll cap ([] : List α) xs = xs.drop (xs.length - cap) := by
  have he : dqAppendAll cap ([] : List α) xs = xs.drop (xs.length - cap) := by
    rw [dqAppendAll_eq_drop cap hc xs [] (by simp)]
    simp
  refine ⟨?_, he⟩
  rw [he]
  simp
  omega

/-- Witness for C4 at capacity 2 and four appended values. -/
theorem c4_witness :
    ((0 : Nat) < 2 ∧ 2 < ([5, 6, 7, 8] : List Nat).length) ∧
      ((dqAppendAll 2 ([] : List Nat) [5, 6, 7, 8]).length = 2 ∧
        dqAppendAll 2 ([] : List Nat) [5, 6, 7, 8] =
          ([5, 6, 7, 8] : List Nat).drop ([5, 6, 7, 8].length - 2)) :=
  ⟨by decide, c4_rolling_window 2 [5, 6, 7, 8] (by decide) (by decide)⟩

/-- Claim C6: for a raw line whose cleaned comma-separated field list has at
least 8 fields and whose fields 1, 3, 5 and 7 parse with the injected
numeric parser, decode yields the sample that keeps field 0 as the device
timestamp string, stores exactly the parsed numeric values, and whose two
heat-index fields are the injected heat-index function applied to each
channel's temperature and relative humidity (NBSP normalization and field
trimming happen inside fieldsOfLine, shared with decodeLine). -/
theorem c6_decode_valid_line {F : Type} (pf : String → Option F)
    (hi : F → F → F) (raw : String) (t r t2 h2 : F)
    (h8 : 8 ≤ (fieldsOfLine raw).length)
    (h1 : pf ((fieldsOfLine raw).getD 1 "") = some t)
    (h3 : pf ((fieldsOfLine raw).getD 3 "") = some r)
    (h5 : pf ((fieldsOfLine raw).getD 5 "") = some t2)
    (h7 : pf ((fieldsOfLine raw).getD 7 "") = some h2) :
    decodeLine pf hi raw = DecodeOutcome.sample
      ⟨(fieldsOfLine raw).getD 0 "", t, r, t2, h2, hi t r, hi t2 h2⟩ := by
  have hne : ¬ trimChars raw.data = [] := by
    intro hnil
    rw [fieldsOfLine, hnil] at h8
    have hone : fieldsFrom ([] : List Char) = [""] := rfl
    rw [hone] at h8
    simp at h8
  unfold decodeLine
  rw [if_neg hne, if_pos h8, h1, h3, h5, h7]

/-- Witness for C6 on a concrete 8-field line with the decimal parser and
addition standing in for the injected heat-index function. -/
theorem c6_witness :
    (8 ≤ (fieldsOfLine ("01/01/2024 10:00:00,22,x,55,x,21,y,60")).length ∧
      parseNat? ((fieldsOfLine ("01/01/2024 10:00:00,22,x,55,x,21,y,60")).getD 1 "") =
        some 22) ∧
      decodeLine parseNat? (fun a b => a + b)
          ("01/01/2024 10:00:00,22,x,55,x,21,y,60") =
        DecodeOutcome.sample
          ⟨(fieldsOfLine ("01/01/2024 10:00:00,22,x,55,x,21,y,60")).getD 0 "",
            22, 55, 21, 60, 22 + 55, 21 + 60⟩ :=
  ⟨⟨by decide, by decide⟩,
    c6_decode_valid_line parseNat? (fun a b => a + b)
      ("01/01/2024 10:00:00,22,x,55,x,21,y,60") 22 55 21 60 (by decide)
      (by decide) (by decide) (by decide) (by decide)⟩

/-- Counterexample for C5: the spec's own end-to-end line for the 4-field
instrument variant has 5 comma-separated fields, at or above that
variant's advertised minimum of 4, yet the code produces no sample and no
error for it: the field minimum is hard-coded to 8 in
serial_reader_thread, with no startup configuration and no 4-field
variant. -/
theorem c5_counterexample :
    (fieldsOfLine ("01/01/2024 10:00:00, 22, x, 55, x")).length = 5 ∧
      (4 ≤ (fieldsOfLine ("01/01/2024 10:00:00, 22, x, 55, x")).length) ∧
      decodeLine parseNat? (fun a b => a + b)
          ("01/01/2024 10:00:00, 22, x, 55, x") = DecodeOutcome.skip := by
  decide

/-- Claim C5 as amended: for every input line with fewer than 8
comma-separated fields (the minimum is hard-coded to 8), decode silently
skips it (no error value is produced) and the reader pushes nothing, so
the pipeline's sample count is unaffected. -/
theorem c5_short_line_skipped {F : Type} (pf : String → Option F)
    (hi : F → F → F) (raw : String)
    (h : (fieldsOfLine raw).length < 8) :
    decodeLine pf hi raw = DecodeOutcome.skip ∧ handleRead pf hi raw = [] := by
  have hskip : decodeLine pf hi raw = DecodeOutcome.skip := by
    unfold decodeLine
    by_cases he : trimChars raw.data = []
    · rw [if_pos he]
    · rw [if_neg he, if_neg (by omega)]
  refine ⟨hskip, ?_⟩
  unfold handleRead
  rw [hskip]

/-- Witness for C5 on a concrete 3-field line. -/
theorem c5_witness :
    (fieldsOfLine ("a,b,c")).length < 8 ∧
      (decodeLine parseNat? (fun a b => a + b) ("a,b,c") = DecodeOutcome.skip ∧
        handleRead parseNat? (fun a b => a + b) ("a,b,c") = []) :=
  ⟨by decide,
    c5_short_line_skipped parseNat? (fun a b => a + b) ("a,b,c") (by decide)⟩

/-- Claim C7: when the initial serial open fails, the reader thread's trace
is exactly the failed open and the error report, whatever the event
script would have been: nothing is pushed, the initial connect is never
retried, and the loop never runs.  Separately, a mid-session read failure
does not abort the session: the loop's trace on a readFail event is the
failure handler followed by the processing of the remaining events. -/
theorem c7_initial_open_failure {F : Type} (pf : String → Option F)
    (hi : F → F → F) (port : String) (baud : Nat) :
    (∀ events : List REvent,
      serialReader pf hi port baud false events =
        [RAction.openPort port baud false, RAction.reportOpenFailed]) ∧
    (∀ (isOpen ok : Bool) (rest : List REvent),
      (runLoop pf hi port baud isOpen (REvent.readFail ok :: rest)).1 =
        failTrace port baud isOpen ok ++ (runLoop pf hi port baud ok rest).1) :=
  ⟨fun _ => rfl, fun _ _ _ => rfl⟩

/-- Counterexample for C8: a mid-session read failure whose immediate
reopen succeeds produces a trace with a reopen attempt but no backoff
sleep at all, so the loop does not wait a fixed backoff interval before
attempting to reopen, contrary to the claim; the code reopens first and
sleeps only after a failed reopen. -/
theorem c8_counterexample :
    serialReader parseNat? (fun a b => a + b) ("COM3") 9600 true
        [REvent.readFail true] =
      [RAction.openPort ("COM3") 9600 true, RAction.reportError,
        RAction.closeHandle, RAction.openPort ("COM3") 9600 true,
        RAction.closeHandle] ∧
      RAction.sleepBackoff ∉
        serialReader parseNat? (fun a b => a + b) ("COM3") 9600 true
          [REvent.readFail true] := by
  decide

/-- Helper: the actions of one read event do not affect the
failed-reopen-is-followed-by-sleep property of the rest of the trace. -/
theorem noBusy_handleRead {F : Type} (pf : String → Option F)
    (hi : F → F → F) (raw : String) (t : List (RAction F)) :
    noBusy (handleRead pf hi raw ++ t) = noBusy t := by
  unfold handleRead
  cases h : decodeLine pf hi raw
  · rfl
  · rfl
  · rfl

/-- Helper: the failure handler's actions preserve the
failed-reopen-is-followed-by-sleep property of the rest of the trace. -/
theorem noBusy_failTrace {F : Type} (port : String) (baud : Nat)
    (isOpen ok : Bool) (t : List (RAction F)) :
    noBusy (failTrace port baud isOpen ok ++ t) = noBusy t := by
  cases isOpen <;> cases ok <;> rfl

/-- Helper: in every reader-loop trace, a failed reopen attempt is
immediately followed by the backoff sleep: the loop never busy-loops. -/
theorem noBusy_runLoop {F : Type} (pf : String → Option F) (hi : F → F → F)
    (port : String) (baud : Nat) :
    ∀ (events : List REvent) (isOpen : Bool),
      noBusy ((runLoop pf hi port baud isOpen events).1) = true := by
  intro events
  induction events with
  | nil => intro isOpen; rfl
  | cons e rest ih =>
      intro isOpen
      cases e with
      | read raw =>
          have hr : (runLoop pf hi port baud isOpen (REvent.read raw :: rest)).1 =
              handleRead pf hi raw ++ (runLoop pf hi port baud isOpen rest).1 := rfl
          rw [hr, noBusy_handleRead]
          exact ih isOpen
      | readFail ok =>
          have hr : (runLoop pf hi port baud isOpen (REvent.readFail ok :: rest)).1 =
              failTrace port baud isOpen ok ++ (runLoop pf hi port baud ok rest).1 := rfl
          rw [hr, noBusy_failTrace]
          exact ih ok

/-- Claim C8 as amended: on a mid-session I/O failure the loop reports the
error, closes the handle if it is open, and immediately attempts to
reopen the same port and baud rate; only when that reopen fails does it
sleep the fixed backoff interval before the next iteration, so failed
reopen attempts happen at most once per backoff interval (every failed
reopen in any trace is immediately followed by the sleep), and the loop
always continues with the remaining events, never aborting the session. -/
theorem c8_reconnect_behavior {F : Type} (pf : String → Option F)
    (hi : F → F → F) (port : String) (baud : Nat) :
    (∀ (isOpen ok : Bool) (rest : List REvent),
      (runLoop pf hi port baud isOpen (REvent.readFail ok :: rest)).1 =
        RAction.reportError ::
          ((if isOpen then [RAction.closeHandle] else []) ++
            RAction.openPort port baud ok ::
              (if ok then [] else [RAction.sleepBackoff])) ++
          (runLoop pf hi port baud ok rest).1) ∧
    (∀ (events : List REvent) (isOpen : Bool),
      noBusy ((runLoop pf hi port baud isOpen events).1) = true) :=
  ⟨fun isOpen ok rest => by cases isOpen <;> cases ok <;> rfl,
    noBusy_runLoop pf hi port baud⟩

/-- Helper: when writing the temporary file fails, save_to_excel leaves the
file system as it was. -/
theorem saveToExcel_write_failed {R : Type} (env : SaveEnv) (records : List R)
    (fs : FS R) (h : env.writeOk = false) :
    (saveToExcel env records fs).2 = fs := by
  unfold saveToExcel
  by_cases hr : records.isEmpty = true
  · rw [if_pos hr]
  · rw [if_neg hr]
    simp [h]

/-- Counterexample for C1: during a fully successful flush over an existing
file, the observable trace of save_to_excel contains a state in which the
target path holds no file at all (between os.remove of the old file and
shutil.move of the temporary file), which is neither the pre-flush
content some [1] nor the post-flush merged content some [1, 2]. -/
theorem c1_counterexample :
    (⟨none, some [1, 2]⟩ : FS Nat) ∈
        (saveToExcel envOK [2] (⟨some [1], none⟩ : FS Nat)).1 ∧
      (⟨none, some [1, 2]⟩ : FS Nat).target ≠ some [1] ∧
      (⟨none, some [1, 2]⟩ : FS Nat).target ≠ some [1, 2] := by
  decide

/-- Claim C1 as amended: every file-system state observable during
save_to_excel has, at the target path, either the complete pre-flush
content, or the complete merged content, or no file at all (the window
between removing the old target and moving the temporary file into
place); a partially written target is never observable, since the merged
set is written entirely at the temporary path first and the move within
one directory is an atomic rename. -/
theorem c1_flush_target_states {R : Type} (env : SaveEnv) (records : List R)
    (fs : FS R) :
    ∀ s ∈ (saveToExcel env records fs).1,
      s.target = fs.target ∨
        s.target = some (mergeRows fs.target env.readOk records) ∨
        s.target = none := by
  rcases env with ⟨ro, wo, mo⟩
  rcases fs with ⟨tgt, tmp⟩
  intro s hs
  unfold saveToExcel at hs
  by_cases hr : records.isEmpty = true
  · rw [if_pos hr] at hs
    rw [List.mem_singleton] at hs
    subst hs
    exact Or.inl rfl
  · rw [if_neg hr] at hs
    cases wo with
    | false =>
        simp at hs
        subst hs
        exact Or.inl rfl
    | true =>
        cases tgt with
        | none =>
            cases mo <;> simp at hs <;>
              rcases hs with h | h | h <;> subst h <;> simp [mergeRows]
        | some old =>
            cases mo <;> simp at hs <;>
              rcases hs with h | h | h | h <;> subst h <;> simp [mergeRows]

/-- Witness for C1: the amended theorem applied to the final state of a
concrete successful flush over an existing file. -/
theorem c1_witness :
    (⟨some [1, 2], none⟩ : FS Nat) ∈
        (saveToExcel envOK [2] (⟨some [1], none⟩ : FS Nat)).1 ∧
      ((⟨some [1, 2], none⟩ : FS Nat).target = (⟨some [1], none⟩ : FS Nat).target ∨
        (⟨some [1, 2], none⟩ : FS Nat).target =
          some (mergeRows (⟨some [1], none⟩ : FS Nat).target envOK.readOk [2]) ∨
        (⟨some [1, 2], none⟩ : FS Nat).target = none) :=
  ⟨by decide,
    c1_flush_target_states envOK [2] ⟨some [1], none⟩ ⟨some [1, 2], none⟩ (by decide)⟩

/-- Counterexample for C2: a tick in which the periodic save fires but the
write of the temporary file fails.  Nothing reaches the disk (the store
still holds no file), yet the buffer is cleared and last_save_time is
advanced to the current time, because save_to_excel swallows the
exception and update_plots clears unconditionally: the buffered sample of
the failed flush is lost, contrary to the claim that buffer and timestamp
are left unchanged on failure. -/
theorem c2_counterexample :
    stC2.buffer = [sampleA] ∧ stC2.lastSave = 0 ∧
      updateTick parseNat? 3 1 300 100 envWriteFail stC2 =
        ⟨[], w0, [], 100, ⟨none, none⟩⟩ := by
  decide

/-- Claim C2 as amended: whenever a tick's periodic save fires (shown here
with the queue already drained), the buffer is cleared and last_save_time
is set to the current time regardless of whether the save succeeded; in
particular, when the temporary-file write fails, the store is unchanged,
so the samples of that flush are lost rather than retried. -/
theorem c2_flush_clears_unconditionally {N F : Type}
    (parseTs : String → Option N) (cap recTh secTh : Nat) (now : Int)
    (env : SaveEnv) (st : CState N F) (hq : st.queue = [])
    (hf : shouldFlush st.buffer now st.lastSave recTh secTh = true) :
    (updateTick parseTs cap recTh secTh now env st).buffer = [] ∧
      (updateTick parseTs cap recTh secTh now env st).lastSave = now ∧
      (env.writeOk = false →
        (updateTick parseTs cap recTh secTh now env st).fs = st.fs) := by
  have hpq : processQueue parseTs cap st.queue st.windows st.buffer =
      ([], st.windows, st.buffer, false) := by
    rw [hq]
    rfl
  have hmain : updateTick parseTs cap recTh secTh now env st =
      { st with
        queue := []
        buffer := []
        lastSave := now
        fs := (saveToExcel env st.buffer st.fs).2 } := by
    unfold updateTick
    rw [hpq]
    show (if shouldFlush st.buffer now st.lastSave recTh secTh = true then _
      else _) = _
    rw [if_pos hf]
  rw [hmain]
  exact ⟨rfl, rfl, fun h => saveToExcel_write_failed env st.buffer st.fs h⟩

/-- Witness for C2: the amended theorem at a concrete state whose buffer
has reached the record threshold, with a failing temporary write. -/
theorem c2_witness :
    (stC2w.queue = [] ∧
      shouldFlush stC2w.buffer 200 stC2w.lastSave 2 300 = true) ∧
      ((updateTick parseNat? 3 2 300 200 envWriteFail stC2w).buffer = [] ∧
        (updateTick parseNat? 3 2 300 200 envWriteFail stC2w).lastSave = 200 ∧
        (envWriteFail.writeOk = false →
          (updateTick parseNat? 3 2 300 200 envWriteFail stC2w).fs = stC2w.fs)) :=
  ⟨⟨by decide, by decide⟩,
    c2_flush_clears_unconditionally parseNat? 3 2 300 200 envWriteFail stC2w
      (by decide) (by decide)⟩

/-- Counterexample for C9: at stop, one sample is still in the channel and
the buffer is empty.  stop_logging leaves the state unchanged: nothing is
drained from the channel and nothing is persisted (the store still holds
no file), so the queued sample is discarded, contrary to the claim that
every remaining channel item is drained and flushed. -/
theorem c9_counterexample :
    stC9.queue = [sampleB] ∧ stopLogging envOK stC9 = stC9 ∧
      (stopLogging envOK stC9).fs.target = none := by
  decide

/-- Claim C9 as amended: on stop, if the persistence buffer is non-empty,
one final synchronous save of the buffer runs unconditionally (no count
or time threshold is consulted) and the buffer is cleared; the sample
channel is not drained: the queue is left exactly as it was, so items
still queued at stop are discarded. -/
theorem c9_stop_flushes_buffer_not_queue {N F : Type} (env : SaveEnv)
    (st : CState N F) (h : st.buffer ≠ []) :
    stopLogging env st =
      { st with buffer := [], fs := (saveToExcel env st.buffer st.fs).2 } := by
  have hb : st.buffer.isEmpty = false := List.isEmpty_eq_false.mpr h
  unfold stopLogging
  rw [if_neg (by simp [hb])]

/-- Witness for C9: a concrete stop with one queued and one buffered
sample; the buffered one is saved, the queued one stays in the queue. -/
theorem c9_witness :
    stC9w.buffer ≠ [] ∧
      stopLogging envOK stC9w =
        { stC9w with
          buffer := []
          fs := (saveToExcel envOK stC9w.buffer stC9w.fs).2 } :=
  ⟨by decide, c9_stop_flushes_buffer_not_queue envOK stC9w (by decide)⟩

/-- Helper: draining a queue that contains a sample with an unparseable
timestamp stops at that sample: the earlier samples are appended to the
windows and the buffer, the bad sample is dropped, the samples behind it
stay queued, and the early-return flag is set. -/
theorem processQueue_bad {N F : Type} (parseTs : String → Option N)
    (cap : Nat) (bad : Sample F) (rest : List (Sample F))
    (hbad : parseTs bad.timestamp_str = none) :
    ∀ (pre : List (Sample F)) (w : Windows N F) (b : List (Sample F)),
      (∀ d ∈ pre, (parseTs d.timestamp_str).isSome = true) →
      processQueue parseTs cap (pre ++ bad :: rest) w b =
        (rest, windowsAfter parseTs cap w pre, b ++ pre, true) := by
  intro pre
  induction pre with
  | nil =>
      intro w b _
      simp only [List.nil_append]
      unfold processQueue
      rw [hbad]
      simp [windowsAfter]
  | cons d ds ih =>
      intro w b hpre
      have hd : (parseTs d.timestamp_str).isSome = true := hpre d (by simp)
      obtain ⟨t, ht⟩ := Option.isSome_iff_exists.mp hd
      have hcons : processQueue parseTs cap ((d :: ds) ++ bad :: rest) w b =
          processQueue parseTs cap (ds ++ bad :: rest)
            (appendWindows cap w t d) (b ++ [d]) := by
        simp only [List.cons_append]
        simp only [processQueue]
        rw [ht]
      rw [hcons, ih (appendWindows cap w t d) (b ++ [d])
        (fun x hx => hpre x (List.mem_cons_of_mem d hx))]
      have hwa : windowsAfter parseTs cap w (d :: ds) =
          windowsAfter parseTs cap (appendWindows cap w t d) ds := by
        simp only [windowsAfter]
        rw [ht]
      rw [hwa, List.append_assoc]
      rfl

/-- Claim C10: when the queue holds some parseable samples, then one whose
device timestamp does not parse, then more samples, the tick appends the
parseable prefix to the windows and the buffer, removes the bad sample
from the queue without appending it to any window or to the buffer,
leaves the samples behind it queued for the next tick, and returns early
(so the store, last_save_time, and the rest of the state are untouched). -/
theorem c10_bad_timestamp_discarded {N F : Type}
    (parseTs : String → Option N) (cap recTh secTh : Nat) (now : Int)
    (env : SaveEnv) (st : CState N F) (pre : List (Sample F))
    (bad : Sample F) (rest : List (Sample F))
    (hq : st.queue = pre ++ bad :: rest)
    (hpre : ∀ d ∈ pre, (parseTs d.timestamp_str).isSome = true)
    (hbad : parseTs bad.timestamp_str = none) :
    updateTick parseTs cap recTh secTh now env st =
      { st with
        queue := rest
        windows := windowsAfter parseTs cap st.windows pre
        buffer := st.buffer ++ pre } := by
  unfold updateTick
  rw [hq, processQueue_bad parseTs cap bad rest hbad pre st.windows st.buffer hpre]

/-- Witness for C10: a concrete tick on a queue holding one parseable
sample, one with a malformed timestamp, and one more behind it. -/
theorem c10_witness :
    (stC10.queue = [sampleA] ++ sampleBad :: [sampleB] ∧
      (∀ d ∈ [sampleA], (parseNat? d.timestamp_str).isSome = true) ∧
      parseNat? sampleBad.timestamp_str = none) ∧
      updateTick parseNat? 3 60 300 50 envOK stC10 =
        { stC10 with
          queue := [sampleB]
          windows := windowsAfter parseNat? 3 stC10.windows [sampleA]
          buffer := stC10.buffer ++ [sampleA] } :=
  ⟨⟨by decide, by decide, by decide⟩,
    c10_bad_timestamp_discarded parseNat? 3 60 300 50 envOK stC10 [sampleA]
      sampleBad [sampleB] (by decide) (by decide) (by decide)⟩

end Fluke
